import Mathlib

/-!
Shallow embedding of `src/main.py` of the autoCFF repository.

The script talks to two HTTP services: the GitHub REST API and the public
ORCID registry.  We model the network as an explicit environment (`Env`,
`RepoEnv`) recording the response each endpoint would return.  The profile
endpoint is fetched at three distinct program points
(`search_github_user_for_orcid_robust`'s existence check,
`search_github_user_for_orcid`'s scan, and
`get_name_and_institution_from_github_api`), so the environment holds one
response per fetch site: in a stable world they coincide, but HTTP allows
them to differ and the spec's error-handling claims mention exactly that.

Python exceptions are modelled with `Except PyError`; values that Python may
set to `None` are `Option`s.  The functions additionally report, as plain
data, the observable effects the spec talks about: whether the ambiguity
warning was printed, how many ORCID-registry search queries were issued and
how many full-record fetches were performed.
-/

/-- Python exception kinds the script can actually raise. -/
inductive PyError where
  | valueError (msg : String)
  /-- unpacking `None` into `[name, affiliation]` -/
  | typeError
  /-- calling `.split` on `None` -/
  | attributeError
  /-- indexing an empty list -/
  | indexError
deriving Repr, DecidableEq

/-- A GitHub user-profile response: HTTP status, the serialized JSON body
(`str(user_data)`, the string the ORCID regex is run over), and the
`name` / `company` fields (each may be JSON `null`). -/
structure ProfileResp where
  status : Nat
  serialized : String
  name : Option String
  company : Option String
deriving Repr, DecidableEq

/-- A `social_accounts` response: HTTP status and serialized body. -/
structure SocialResp where
  status : Nat
  serialized : String
deriving Repr, DecidableEq

/-- One entry of an ORCID search response: the `orcid-identifier` object's
`uri` and `path` fields. -/
structure OrcidCandidate where
  uri : String
  path : String
deriving Repr, DecidableEq

/-- An ORCID `/search` response: HTTP status, the `num-found` field and the
`result` list (at most `rows=10` entries). -/
structure SearchResp where
  status : Nat
  numFound : Int
  result : List OrcidCandidate
deriving Repr, DecidableEq

/-- One employment affiliation from an ORCID record: its
`organization.name`. -/
structure Affiliation where
  orgName : String
deriving Repr, DecidableEq

/-- An ORCID `/v3.0/orcid-id` record response: HTTP status and the
`activities-summary.employments.employment-summary` list. -/
structure RecordResp where
  status : Nat
  employments : List Affiliation
deriving Repr, DecidableEq

/-- The network environment seen by one identity-resolution run.  One field
per fetch site; `records` maps an ORCID path to the record-endpoint
response. -/
structure Env where
  /-- response to `GET /users/u` at the existence check in
  `search_github_user_for_orcid_robust` -/
  profileCheck : ProfileResp
  /-- response to `GET /users/u` inside `search_github_user_for_orcid` -/
  profileScan : ProfileResp
  /-- response to `GET /users/u/social_accounts` -/
  social : SocialResp
  /-- response to `GET /users/u` inside
  `get_name_and_institution_from_github_api` -/
  profileName : ProfileResp
  /-- response to the given-name+family-name+affiliation-org-name search -/
  exactSearch : SearchResp
  /-- response to the given-name+family-name search -/
  broadSearch : SearchResp
  /-- response to `GET /v3.0/orcid-path`, by path -/
  records : String → RecordResp

/- ### The ORCID regular expression scan

`re.findall(r'\bhttps?://orcid\.org/\d\x7b4\x7d-\d\x7b4\x7d-\d\x7b4\x7d-\d\x7b3\x7d[0-9X]\b', s)`:
leftmost non-overlapping matches, each bounded by word boundaries. -/

/-- A regex word character (`\w`): letter, digit or underscore. -/
def isWordChar (c : Char) : Bool :=
  c.isAlpha || c.isDigit || c == '_'

/-- Consume an expected literal prefix, returning the remainder. -/
def stripLit : List Char → List Char → Option (List Char)
  | [], rest => some rest
  | p :: ps, c :: cs => if c == p then stripLit ps cs else none
  | _ :: _, [] => none

/-- Consume exactly `n` decimal digits, returning them and the remainder. -/
def stripDigits : Nat → List Char → Option (List Char × List Char)
  | 0, rest => some ([], rest)
  | n + 1, c :: cs =>
    if c.isDigit then
      match stripDigits n cs with
      | some (ds, rest) => some (c :: ds, rest)
      | none => none
    else none
  | _ + 1, [] => none

/-- Try to match the body of the ORCID pattern
(`https?://orcid.org/` then `dddd-dddd-dddd-ddd[0-9X]`) at the head of the
character list; on success return the matched characters and the rest. -/
def matchOrcidAt (l : List Char) : Option (List Char × List Char) := do
  let r1 ← stripLit "http".data l
  let (sPart, r2) : List Char × List Char :=
    match r1 with
    | 's' :: rest => (['s'], rest)
    | _ => ([], r1)
  let r3 ← stripLit "://orcid.org/".data r2
  let (d1, r4) ← stripDigits 4 r3
  let r5 ← stripLit ['-'] r4
  let (d2, r6) ← stripDigits 4 r5
  let r7 ← stripLit ['-'] r6
  let (d3, r8) ← stripDigits 4 r7
  let r9 ← stripLit ['-'] r8
  let (d4, r10) ← stripDigits 3 r9
  match r10 with
  | c :: r11 =>
    if c.isDigit || c == 'X' then
      some ("http".data ++ sPart ++ "://orcid.org/".data
              ++ d1 ++ '-' :: d2 ++ '-' :: d3 ++ '-' :: d4 ++ [c], r11)
    else none
  | [] => none

/-- Scan for all leftmost non-overlapping pattern matches.  `prev` is the
character just before the current position (`none` at the start), used for
the left word boundary; the right boundary checks the character after the
match.  `fuel` only bounds the recursion; one unit is spent per scan step so
`length + 1` units always suffice. -/
def findAllAux : Nat → Option Char → List Char → List String
  | 0, _, _ => []
  | _ + 1, _, [] => []
  | fuel + 1, prev, c :: cs =>
    let leftOk : Bool :=
      match prev with
      | none => true
      | some p => !isWordChar p
    if leftOk then
      match matchOrcidAt (c :: cs) with
      | some (m, rest) =>
        let rightOk : Bool :=
          match rest with
          | [] => true
          | r :: _ => !isWordChar r
        if rightOk then
          String.mk m :: findAllAux fuel (some (m.getLastD ' ')) rest
        else
          findAllAux fuel (some c) cs
      | none => findAllAux fuel (some c) cs
    else findAllAux fuel (some c) cs

/-- `re.findall` of the ORCID pattern over a string. -/
def orcidFindAll (s : String) : List String :=
  findAllAux (s.data.length + 1) none s.data

/- ### search_github_user_for_orcid -/

/-- The `social_accounts` half of `search_github_user_for_orcid`: on HTTP
200, regex-scan the serialized response; a non-empty match list is returned,
anything else yields `None`. -/
def scanSocial (env : Env) : Option (List String) :=
  if env.social.status = 200 then
    match orcidFindAll env.social.serialized with
    | [] => none
    | m :: ms => some (m :: ms)
  else none

/-- `search_github_user_for_orcid(username)`: scan the serialized profile
for ORCID-like strings; if that yields no matches (or the profile fetch is
not 200), fall through to the social-accounts scan; otherwise `None`. -/
def search_github_user_for_orcid (env : Env) : Option (List String) :=
  if env.profileScan.status = 200 then
    match orcidFindAll env.profileScan.serialized with
    | [] => scanSocial env
    | m :: ms => some (m :: ms)
  else scanSocial env

/- ### get_name_and_institution_from_github_api -/

/-- `get_name_and_institution_from_github_api(username)`: on HTTP 200 return
the `(name, company)` pair (each possibly `None`); on any other status the
Python function falls off its end and returns `None`. -/
def get_name_and_institution_from_github_api (env : Env) :
    Option (Option String × Option String) :=
  if env.profileName.status = 200 then
    some (env.profileName.name, env.profileName.company)
  else none

/- ### search_orcid_individual -/

/-- The acronym derivation: the characters of the organization name that are
uppercase, in order (`char.isupper()`). -/
def capitalizedAffiliation (a : Affiliation) : String :=
  String.mk (a.orgName.data.filter Char.isUpper)

/-- The source's comparison `iAffiliation == institution` compares the whole
affiliation record — a Python dict — with the institution, a string or
`None`.  A dict never equals a string or `None`, so this comparison is
identically false. -/
def affilRecordEqPy (_a : Affiliation) (_institution : Option String) : Bool :=
  false

/-- The acceptance test of the broad-search loop:
`capitalized_affiliation == institution or iAffiliation == institution`.
The first comparison is string equality (false when institution is `None`),
the second is `affilRecordEqPy`. -/
def affiliationAccepts (institution : Option String) (a : Affiliation) : Bool :=
  some (capitalizedAffiliation a) == institution || affilRecordEqPy a institution

/-- The candidate loop of the broad search.  Mirrors the Python `for` loop:
the over-10 ambiguity check sits at the top of the body (so it only fires
when at least one candidate is present, and before any record fetch or
sleep); then the candidate's full record is fetched and, on HTTP 200, its
employment affiliations are tested in order, returning the formatted ORCID
URI on the first acceptance.  Returns (warned, record fetches, outcome). -/
def broadLoop (env : Env) (numFound : Int) (institution : Option String) :
    List OrcidCandidate → Nat → Bool × Nat × Except PyError (Option String)
  | [], fetches => (false, fetches, .ok none)
  | c :: rest, fetches =>
    if numFound > 10 then
      (true, fetches, .ok none)
    else
      let recordResp := env.records c.path
      if recordResp.status = 200 then
        if recordResp.employments.any (affiliationAccepts institution) then
          (false, fetches + 1, .ok (some ("https://orcid.org/" ++ c.path)))
        else
          broadLoop env numFound institution rest (fetches + 1)
      else
        broadLoop env numFound institution rest (fetches + 1)

deriving instance DecidableEq for Except

/-- Outcome of `search_orcid_individual` plus its observable effects. -/
structure OrcidSearchResult where
  result : Except PyError (Option String)
  /-- whether the too-many-results warning was printed -/
  warned : Bool
  /-- number of ORCID `/search` queries issued (exact, then broad) -/
  searchCalls : Nat
  /-- number of ORCID full-record fetches issued -/
  recordFetches : Nat
deriving Repr, DecidableEq

/-- The broad-search fallback of `search_orcid_individual`: re-query with
only given and family name; on HTTP 200 run the candidate loop, otherwise
fall through to `return None`.  Both registry searches have been issued by
this point. -/
def broadPhase (env : Env) (institution : Option String) : OrcidSearchResult :=
  if env.broadSearch.status = 200 then
    match broadLoop env env.broadSearch.numFound institution env.broadSearch.result 0 with
    | (warned, fetches, res) => ⟨res, warned, 2, fetches⟩
  else ⟨.ok none, false, 2, 0⟩

/-- `search_orcid_individual(name, institution)`.  A `None` name raises
`AttributeError` at `name.split(" ")` before any registry call.  Otherwise
the exact search (given-name AND family-name AND affiliation-org-name) is
issued: on HTTP 200 with `num-found == 1` the single result's URI is
returned (indexing an empty result list would raise `IndexError`); any
other outcome falls through to the broad phase. -/
def search_orcid_individual (env : Env) (name institution : Option String) :
    OrcidSearchResult :=
  match name with
  | none => ⟨.error .attributeError, false, 0, 0⟩
  | some n =>
    let _first_name := (n.splitOn " ").headD ""
    let _last_name := (n.splitOn " ").getLastD ""
    if env.exactSearch.status = 200 ∧ env.exactSearch.numFound = 1 then
      match env.exactSearch.result with
      | [] => ⟨.error .indexError, false, 1, 0⟩
      | c :: _ => ⟨.ok (some c.uri), false, 1, 0⟩
    else broadPhase env institution

/- ### search_github_user_for_orcid_robust (resolvePID) -/

/-- Outcome of `search_github_user_for_orcid_robust` plus the observable
effects of the registry steps. -/
structure ResolveResult where
  result : Except PyError (Option String)
  warned : Bool
  searchCalls : Nat
  recordFetches : Nat
deriving Repr, DecidableEq

/-- `search_github_user_for_orcid_robust(username)` — the spec's
`resolvePID`.  Existence check first (`ValueError` on non-200); then the
profile/social scan, returning the first element of a non-`None` result
(a list in this model, so the `type(...) == list` branch); then name and
institution are fetched and unpacked (`TypeError` if that call returned
`None`) and the registry search runs, its outcome passed through. -/
def search_github_user_for_orcid_robust (env : Env) (username : String) :
    ResolveResult :=
  if env.profileCheck.status ≠ 200 then
    ⟨.error (.valueError ("GitHub user " ++ username ++ " does not exist.")),
      false, 0, 0⟩
  else
    match search_github_user_for_orcid env with
    | some [] => ⟨.error .indexError, false, 0, 0⟩
    | some (l :: _) => ⟨.ok (some l), false, 0, 0⟩
    | none =>
      match get_name_and_institution_from_github_api env with
      | none => ⟨.error .typeError, false, 0, 0⟩
      | some (name, affiliation) =>
        let s := search_orcid_individual env name affiliation
        ⟨s.result, s.warned, s.searchCalls, s.recordFetches⟩

/- ### get_repository_contributors -/

/-- One week of a contributor's statistics: `w` is the week-start timestamp,
`a`/`d` the additions and deletions (a missing key behaves as 0 both in the
defaulted sums and in the truthiness test, so it is modelled as 0). -/
structure WeekStat where
  w : Int
  a : Int
  d : Int
deriving Repr, DecidableEq

/-- One entry of the `stats/contributors` response: the author's login and
the list of weeks. -/
structure AuthorStat where
  login : Option String
  weeks : List WeekStat
deriving Repr, DecidableEq

/-- One entry of the `contributors` response. -/
structure ContributorEntry where
  login : Option String
  contributions : Option Int
deriving Repr, DecidableEq

/-- The contributor record the aggregation builds: `volume` stays `none`
when no statistics entry matched. -/
structure Contributor where
  login : Option String
  contributions : Option Int
  contributed_dates : List Int
  volume : Option Int
deriving Repr, DecidableEq

/-- `stats/contributors` response. -/
structure StatsResp where
  status : Nat
  data : List AuthorStat
deriving Repr, DecidableEq

/-- `contributors` response. -/
structure ContributorsResp where
  status : Nat
  data : List ContributorEntry
deriving Repr, DecidableEq

/-- The network environment of one aggregation run.  The statistics endpoint
is re-fetched once per contributor in the source; upstream data is assumed
stable within a run, so one response stands for all those fetches. -/
structure RepoEnv where
  contributors : ContributorsResp
  stats : StatsResp
deriving Repr, DecidableEq

/-- The per-contributor body of the statistics loop: find the first entry
whose author login equals the contributor's login; sum additions and
deletions over all weeks into `volume`, and collect the week starts of weeks
with truthy additions or deletions. -/
def processStats (login : Option String) (stats : List AuthorStat) :
    Option (Int × List Int) :=
  match stats.find? (fun s => s.login == login) with
  | none => none
  | some s =>
    some ((s.weeks.map WeekStat.a).sum + (s.weeks.map WeekStat.d).sum,
          (s.weeks.filter (fun wk => !(wk.a == 0) || !(wk.d == 0))).map WeekStat.w)

/-- Build one contributor record: start from login, contributions and empty
dates; when the statistics fetch is 200 and an entry matches, set `volume`
and the dates. -/
def mkContributor (env : RepoEnv) (cd : ContributorEntry) : Contributor :=
  if env.stats.status = 200 then
    match processStats cd.login env.stats.data with
    | none => ⟨cd.login, cd.contributions, [], none⟩
    | some (vol, dates) => ⟨cd.login, cd.contributions, dates, some vol⟩
  else ⟨cd.login, cd.contributions, [], none⟩

/-- `get_repository_contributors(owner, repo)` — the spec's `aggregate`:
an empty list unless the contributor-list fetch is 200, otherwise one
record per response entry, in response order. -/
def get_repository_contributors (env : RepoEnv) : List Contributor :=
  if env.contributors.status = 200 then
    env.contributors.data.map (mkContributor env)
  else []

/- ### Concrete environments used in the closed theorems and witnesses -/

/-- A profile that exists (HTTP 200) but carries no ORCID-like string, no
display name and no company. -/
def bareProfile : ProfileResp := ⟨200, "", none, none⟩

/-- A record endpoint that always answers 404. -/
def noRecords : String → RecordResp := fun _ => ⟨404, []⟩

/-- A user whose profile exists but offers nothing: no embedded ORCID link,
no social-account ORCID link, no display name, no company. -/
def envNoName : Env :=
  ⟨bareProfile, bareProfile, ⟨200, ""⟩, bareProfile, ⟨500, 0, []⟩, ⟨500, 0, []⟩, noRecords⟩

/-- Same user, but the profile re-fetch inside the name lookup answers 403. -/
def envRefetchFail : Env := { envNoName with
  profileName := ⟨403, "", none, none⟩ }

/-- A user whose serialized profile embeds one ORCID link. -/
def envProfileHit : Env := { envNoName with
  profileScan :=
    ⟨200, "login DanNBullock blog https://orcid.org/0000-0002-4321-2180 end",
      none, none⟩ }

/-- A nonexistent user: the existence check answers 404. -/
def envNotFound : Env := { envNoName with
  profileCheck := ⟨404, "", none, none⟩ }

/-- The single registry candidate used by the concrete search scenarios. -/
def theCandidate : OrcidCandidate :=
  ⟨"https://orcid.org/0000-0002-2469-0494", "0000-0002-2469-0494"⟩

/-- A user with no profile or social ORCID link whose exact registry search
finds exactly one record. -/
def envExactHit : Env := { envNoName with
  profileName := ⟨200, "", some "Franco Pestilli", some "UT"⟩,
  exactSearch := ⟨200, 1, [theCandidate]⟩ }

/-- The same user when the exact search finds nothing and the broad search
errors out. -/
def envExactMiss : Env := { envExactHit with
  exactSearch := ⟨200, 0, []⟩ }

/-- The same user when the broad search reports 42 matching records. -/
def envBroadMany : Env := { envExactMiss with
  broadSearch := ⟨200, 42, [theCandidate]⟩ }

/-- A user declared at organization "Mit" whose single broad-search
candidate has one employment affiliation named exactly "Mit". -/
def envRawName : Env := { envNoName with
  profileName := ⟨200, "", some "F P", some "Mit"⟩,
  exactSearch := ⟨200, 0, []⟩,
  broadSearch := ⟨200, 1, [theCandidate]⟩,
  records := fun _ => ⟨200, [⟨"Mit"⟩]⟩ }

/-- The aggregation environment: two listed contributors, statistics only
for the first. -/
def aggEnv : RepoEnv :=
  ⟨⟨200, [⟨some "alice", some 3⟩, ⟨some "bob", some 1⟩]⟩,
   ⟨200, [⟨some "alice", [⟨1000, 5, 0⟩, ⟨2000, 0, 0⟩, ⟨3000, 0, 7⟩]⟩]⟩⟩

/-- An aggregation run whose contributor-list fetch answers 403. -/
def aggEnvDown : RepoEnv := ⟨⟨403, []⟩, ⟨200, []⟩⟩

/- ### Helper lemmas -/

/-- Both registry queries have been issued once the broad phase runs. -/
theorem broadPhase_searchCalls (env : Env) (inst : Option String) :
    (broadPhase env inst).searchCalls = 2 := by
  unfold broadPhase
  split
  · split
    rfl
  · rfl

/-- The aggregation never changes a contributor's login. -/
theorem mkContributor_login (env : RepoEnv) (cd : ContributorEntry) :
    (mkContributor env cd).login = cd.login := by
  unfold mkContributor
  split
  · split <;> rfl
  · rfl

/- ### Claim theorems -/

/-- C3: when the initial existence check passes and the serialized profile
payload contains at least one substring matching the ORCID pattern,
`search_github_user_for_orcid_robust` returns the first match and issues no
registry search query and no registry record fetch. -/
theorem profile_scan_returns_first_match (env : Env) (u m : String)
    (ms : List String)
    (h1 : env.profileCheck.status = 200)
    (h2 : env.profileScan.status = 200)
    (h3 : orcidFindAll env.profileScan.serialized = m :: ms) :
    search_github_user_for_orcid_robust env u = ⟨.ok (some m), false, 0, 0⟩ := by
  unfold search_github_user_for_orcid_robust search_github_user_for_orcid
  simp [h1, h2, h3]

/-- Witness for C3: the spec's end-to-end example payload resolves to
exactly its embedded link. -/
theorem profile_scan_returns_first_match_witness :
    search_github_user_for_orcid_robust envProfileHit "DanNBullock" =
      ⟨.ok (some "https://orcid.org/0000-0002-4321-2180"), false, 0, 0⟩ :=
  profile_scan_returns_first_match envProfileHit "DanNBullock"
    "https://orcid.org/0000-0002-4321-2180" [] rfl rfl rfl

/-- C4: when the initial profile fetch is not HTTP 200,
`search_github_user_for_orcid_robust` raises `ValueError` (it does not
return `None`), before any further step. -/
theorem nonexistent_user_raises (env : Env) (u : String)
    (h : env.profileCheck.status ≠ 200) :
    search_github_user_for_orcid_robust env u =
      ⟨.error (.valueError ("GitHub user " ++ u ++ " does not exist.")),
        false, 0, 0⟩ := by
  unfold search_github_user_for_orcid_robust
  simp [h]

/-- Witness for C4: a 404 existence check aborts with the error. -/
theorem nonexistent_user_raises_witness :
    search_github_user_for_orcid_robust envNotFound "ghost" =
      ⟨.error (.valueError "GitHub user ghost does not exist."), false, 0, 0⟩ :=
  nonexistent_user_raises envNotFound "ghost" (by decide)

/-- C10: `search_github_user_for_orcid` never returns `some []`: any
non-`None` result is a non-empty match list, so the caller's indexing of
the first element is always in range. -/
theorem orcid_scan_nonempty (env : Env) (l : List String)
    (h : search_github_user_for_orcid env = some l) : l ≠ [] := by
  unfold search_github_user_for_orcid scanSocial at h
  split at h
  · split at h
    · split at h
      · split at h
        · exact absurd h (by simp)
        · simp only [Option.some.injEq] at h
          simp [← h]
      · exact absurd h (by simp)
    · simp only [Option.some.injEq] at h
      simp [← h]
  · split at h
    · split at h
      · exact absurd h (by simp)
      · simp only [Option.some.injEq] at h
        simp [← h]
    · exact absurd h (by simp)

/-- Witness for C10: the profile-hit environment returns a non-empty list. -/
theorem orcid_scan_nonempty_witness :
    (["https://orcid.org/0000-0002-4321-2180"] : List String) ≠ [] :=
  orcid_scan_nonempty envProfileHit ["https://orcid.org/0000-0002-4321-2180"] rfl

/-- C5: with no profile or social ORCID link and a display name present,
the exact registry search decides as follows: an HTTP 200 response with
`num-found` exactly 1 returns that single record's URI (one search query,
no record fetch); any other count leaves this step without a match and the
whole resolution reduces to the broad-search fallback (both registry
queries issued). -/
theorem exact_search_unique_match (env : Env) (u n : String)
    (inst : Option String) (c : OrcidCandidate) (cs : List OrcidCandidate)
    (h1 : env.profileCheck.status = 200)
    (h2 : search_github_user_for_orcid env = none)
    (h3 : get_name_and_institution_from_github_api env = some (some n, inst)) :
    (env.exactSearch.status = 200 → env.exactSearch.numFound = 1 →
        env.exactSearch.result = c :: cs →
        search_github_user_for_orcid_robust env u = ⟨.ok (some c.uri), false, 1, 0⟩)
    ∧ (env.exactSearch.numFound ≠ 1 →
        search_github_user_for_orcid_robust env u =
          ⟨(broadPhase env inst).result, (broadPhase env inst).warned, 2,
            (broadPhase env inst).recordFetches⟩) := by
  constructor
  · intro h4 h5 h6
    unfold search_github_user_for_orcid_robust
    simp [h1, h2, h3]
    unfold search_orcid_individual
    simp [h4, h5, h6]
  · intro h4
    unfold search_github_user_for_orcid_robust
    simp [h1, h2, h3]
    unfold search_orcid_individual
    simp [h4, broadPhase_searchCalls env inst]

/-- Witness for C5: both branches at concrete environments — a count of one
returns the record's URI; a count of zero falls through to the broad phase. -/
theorem exact_search_unique_match_witness :
    search_github_user_for_orcid_robust envExactHit "francopestilli" =
      ⟨.ok (some "https://orcid.org/0000-0002-2469-0494"), false, 1, 0⟩
    ∧ search_github_user_for_orcid_robust envExactMiss "francopestilli" =
      ⟨.ok none, false, 2, 0⟩ :=
  ⟨(exact_search_unique_match envExactHit "francopestilli" "Franco Pestilli"
      (some "UT") theCandidate [] rfl rfl rfl).1 rfl rfl rfl,
   (exact_search_unique_match envExactMiss "francopestilli" "Franco Pestilli"
      (some "UT") theCandidate [] rfl rfl rfl).2 (by decide)⟩

/-- C6: when resolution reaches the broad search and it answers HTTP 200
reporting more than 10 matching records (so its result page is non-empty),
`search_github_user_for_orcid_robust` prints the warning and returns `None`
without fetching any candidate's full registry record. -/
theorem broad_search_over_ten_warns (env : Env) (u n : String)
    (inst : Option String) (c : OrcidCandidate) (cs : List OrcidCandidate)
    (h1 : env.profileCheck.status = 200)
    (h2 : search_github_user_for_orcid env = none)
    (h3 : get_name_and_institution_from_github_api env = some (some n, inst))
    (h4 : env.exactSearch.numFound ≠ 1)
    (h5 : env.broadSearch.status = 200)
    (h6 : env.broadSearch.numFound > 10)
    (h7 : env.broadSearch.result = c :: cs) :
    search_github_user_for_orcid_robust env u = ⟨.ok none, true, 2, 0⟩ := by
  unfold search_github_user_for_orcid_robust
  simp [h1, h2, h3]
  unfold search_orcid_individual
  simp [h4]
  unfold broadPhase
  simp [h5, h7]
  unfold broadLoop
  simp [h6]

/-- Witness for C6: 42 reported records yield a warning, `None`, and zero
record fetches. -/
theorem broad_search_over_ten_warns_witness :
    search_github_user_for_orcid_robust envBroadMany "francopestilli" =
      ⟨.ok none, true, 2, 0⟩ :=
  broad_search_over_ten_warns envBroadMany "francopestilli" "Franco Pestilli"
    (some "UT") theCandidate [] rfl rfl rfl (by decide) rfl (by decide) rfl

/-- C7: a listed contributor matching no statistics entry still yields a
record — login and contribution count kept, `volume` unset, activity dates
empty — and the whole batch is still one record per listed contributor. -/
theorem unmatched_contributor_graceful (env : RepoEnv) (cd : ContributorEntry)
    (h1 : env.contributors.status = 200)
    (hmem : cd ∈ env.contributors.data)
    (hfind : env.stats.data.find? (fun s => s.login == cd.login) = none) :
    mkContributor env cd = ⟨cd.login, cd.contributions, [], none⟩
    ∧ get_repository_contributors env
        = env.contributors.data.map (mkContributor env) := by
  constructor
  · unfold mkContributor processStats
    split
    · simp [hfind]
    · rfl
  · unfold get_repository_contributors
    simp [h1]

/-- Witness for C7: contributor "bob" has no statistics entry and still
appears, volume-less, beside "alice". -/
theorem unmatched_contributor_graceful_witness :
    mkContributor aggEnv ⟨some "bob", some 1⟩ = ⟨some "bob", some 1, [], none⟩
    ∧ get_repository_contributors aggEnv
        = aggEnv.contributors.data.map (mkContributor aggEnv) :=
  unmatched_contributor_graceful aggEnv ⟨some "bob", some 1⟩ rfl
    (by decide) rfl

/-- C8: a listed contributor whose login matches a statistics entry (the
first such entry) gets `volume` equal to the sum of all weekly additions
plus the sum of all weekly deletions, and as activity dates the week starts
of exactly the weeks with nonzero additions or deletions, in week order. -/
theorem matched_contributor_volume_dates (env : RepoEnv)
    (cd : ContributorEntry) (s : AuthorStat)
    (h1 : env.contributors.status = 200)
    (hmem : cd ∈ env.contributors.data)
    (h2 : env.stats.status = 200)
    (hfind : env.stats.data.find? (fun t => t.login == cd.login) = some s) :
    mkContributor env cd =
      ⟨cd.login, cd.contributions,
        (s.weeks.filter (fun wk => !(wk.a == 0) || !(wk.d == 0))).map WeekStat.w,
        some ((s.weeks.map WeekStat.a).sum + (s.weeks.map WeekStat.d).sum)⟩
    ∧ mkContributor env cd ∈ get_repository_contributors env := by
  constructor
  · unfold mkContributor processStats
    simp [h2, hfind]
  · unfold get_repository_contributors
    simp [h1]
    exact ⟨cd, hmem, rfl⟩

/-- Witness for C8: "alice" with weeks (5,0), (0,0), (0,7) gets volume 12
and activity dates [1000, 3000]. -/
theorem matched_contributor_volume_dates_witness :
    mkContributor aggEnv ⟨some "alice", some 3⟩ =
      ⟨some "alice", some 3, [1000, 3000], some 12⟩
    ∧ mkContributor aggEnv ⟨some "alice", some 3⟩ ∈
        get_repository_contributors aggEnv :=
  matched_contributor_volume_dates aggEnv ⟨some "alice", some 3⟩
    ⟨some "alice", [⟨1000, 5, 0⟩, ⟨2000, 0, 0⟩, ⟨3000, 0, 7⟩]⟩
    rfl (by decide) rfl rfl

/-- C9: a non-200 contributor-list response yields the empty list (without
raising — the function is total); a 200 response yields the contributors in
the platform's response order, one record per entry, logins unchanged. -/
theorem contributors_status_and_order (env : RepoEnv) :
    (env.contributors.status ≠ 200 → get_repository_contributors env = [])
    ∧ (env.contributors.status = 200 →
        (get_repository_contributors env).map Contributor.login
          = env.contributors.data.map ContributorEntry.login) := by
  constructor
  · intro h
    unfold get_repository_contributors
    simp [h]
  · intro h
    unfold get_repository_contributors
    simp only [h, if_pos, List.map_map]
    exact List.map_congr_left (fun cd _ => mkContributor_login env cd)

/-- Witness for C9: a 403 listing gives no contributors; the 200 listing
keeps the order alice, bob. -/
theorem contributors_status_and_order_witness :
    get_repository_contributors aggEnvDown = []
    ∧ (get_repository_contributors aggEnv).map Contributor.login
        = aggEnv.contributors.data.map ContributorEntry.login :=
  ⟨(contributors_status_and_order aggEnvDown).1 (by decide),
   (contributors_status_and_order aggEnv).2 rfl⟩

/-- A user declared at organization "MIT" whose single broad-search
candidate's affiliation is "Massachusetts Institute of Technology". -/
def envAcronym : Env := { envRawName with
  profileName := ⟨200, "", some "F P", some "MIT"⟩,
  records := fun _ => ⟨200, [⟨"Massachusetts Institute of Technology"⟩]⟩ }

/-- C1 (code bug): the acronym half of the acceptance test works — with
declared organization "MIT" and candidate affiliation "Massachusetts
Institute of Technology" the candidate's PID is returned — but the
raw-affiliation-name half does not: the source compares the whole
affiliation record (a dict) with the institution string
(`iAffiliation == institution`), which is identically false, instead of
the affiliation's name.  With declared organization "Mit" and a candidate
affiliation named exactly "Mit" (derived acronym "M"), the claim accepts
the candidate, yet the code returns `None` after fetching its record. -/
theorem raw_affiliation_name_not_accepted :
    search_github_user_for_orcid_robust envAcronym "user" =
      ⟨.ok (some "https://orcid.org/0000-0002-2469-0494"), false, 2, 1⟩
    ∧ capitalizedAffiliation ⟨"Mit"⟩ = "M"
    ∧ affiliationAccepts (some "Mit") ⟨"Mit"⟩ = false
    ∧ search_github_user_for_orcid_robust envRawName "user" =
      ⟨.ok none, false, 2, 1⟩ :=
  ⟨rfl, rfl, rfl, rfl⟩

/-- C2 (code bug): both of the claim's "returns None" cases raise instead.
For a user whose existence check passes but whose profile has no display
name, `search_orcid_individual` raises `AttributeError` at
`name.split(" ")`; for a user whose profile re-fetch inside the name lookup
is non-200, `get_name_and_institution_from_github_api` returns `None` and
the caller's unpacking `[name, affiliation] = None` raises `TypeError`.
The final conjuncts record that the existence check did pass in both
environments. -/
theorem resolve_raises_despite_existing_user :
    search_github_user_for_orcid_robust envNoName "user" =
      ⟨.error .attributeError, false, 0, 0⟩
    ∧ search_github_user_for_orcid_robust envRefetchFail "user" =
      ⟨.error .typeError, false, 0, 0⟩
    ∧ envNoName.profileCheck.status = 200
    ∧ envRefetchFail.profileCheck.status = 200 :=
  ⟨rfl, rfl, rfl, rfl⟩
